import Mathlib

/-!
Shallow embedding of the two scripts of the Mutsumi repository:

* `src/assets/test.py` — a pixel transparency converter
  (`white_to_transparent`) plus the module-level startup code around it;
* `src/assets/tree-sitter/download_wasm.py` — a concurrent asset fetcher
  (`FILES`, `download_file`, `main`).

Filesystem, network and console effects are made explicit: the filesystem
is a map from paths to contents, the network is an environment saying how
each fetch behaves, and prints become entries of an event trace.
-/

namespace Mutsumi

/-- A single apostrophe character, used inside message strings. -/
def quo : String := ⟨[Char.ofNat 39]⟩

/-! ## Converter data model (`src/assets/test.py`)

PIL pixels before `convert("RGBA")` may lack an alpha channel; the optional
`a` field models that.  `Image.open(...).convert("RGBA")` synthesizes a
fully opaque alpha (255) when the source has none. -/

/-- A decoded pixel as stored in a file: RGB channels plus an optional
alpha channel (absent when the source image has no alpha). -/
structure InPixel where
  r : Nat
  g : Nat
  b : Nat
  a : Option Nat
deriving DecidableEq, Repr

/-- A pixel of an RGBA image: four channels, each an integer in [0,255]
(the transform never inspects the range, so channels are plain `Nat`). -/
structure Pixel where
  r : Nat
  g : Nat
  b : Nat
  a : Nat
deriving DecidableEq, Repr

/-- `convert("RGBA")` on one pixel: keep RGB, default a missing alpha
to fully opaque (255). -/
def convertRGBA (p : InPixel) : Pixel :=
  { r := p.r, g := p.g, b := p.b, a := p.a.getD 255 }

/-- Saving an RGBA pixel back to a file: the alpha channel is present. -/
def storePixel (p : Pixel) : InPixel :=
  { r := p.r, g := p.g, b := p.b, a := some p.a }

/-- The loop body of `white_to_transparent` (test.py lines 21-25):
`if item[0] == 255 and item[1] == 255 and item[2] == 255` append
`(255, 255, 255, 0)` else append `item` unchanged. -/
def transformPixel (item : Pixel) : Pixel :=
  if item.r = 255 ∧ item.g = 255 ∧ item.b = 255 then
    { r := 255, g := 255, b := 255, a := 0 }
  else
    item

/-- A decoded image file: dimensions and the flat pixel sequence that
`getdata()` yields in raster order. -/
structure Image where
  width : Nat
  height : Nat
  data : List InPixel
deriving DecidableEq, Repr

/-- An in-memory RGBA image (after `convert("RGBA")`). -/
structure RGBAImage where
  width : Nat
  height : Nat
  data : List Pixel
deriving DecidableEq, Repr

/-- `Image.open(path).convert("RGBA")`: normalize every pixel to RGBA. -/
def convertToRGBA (img : Image) : RGBAImage :=
  { width := img.width, height := img.height, data := img.data.map convertRGBA }

/-- `img.save(output_path, "PNG")`: encode the RGBA grid back to a file,
preserving dimensions; every pixel now carries an explicit alpha. -/
def encodePNG (img : RGBAImage) : Image :=
  { width := img.width, height := img.height, data := img.data.map storePixel }

/-! ## `os.path.splitext` (posixpath) -/

/-- `str.rfind` for a single character on the character list of a string:
the index of the last occurrence, `-1` when the character is absent. -/
def rfindAux (c : Char) : List Char → Int → Int → Int
  | [], _, best => best
  | ch :: rest, i, best => rfindAux c rest (i + 1) (if ch = c then i else best)

/-- `p.rfind(c)` as an `Int`, `-1` when absent. -/
def rfind (p : List Char) (c : Char) : Int :=
  rfindAux c p 0 (-1)

/-- `os.path.splitext(p)` for the posix separator `/` and extension
separator `.`: split at the last dot after the last slash, except that a
basename made only of leading dots has no extension. -/
def splitext (p : String) : String × String :=
  let l := p.data
  let sepIndex := rfind l '/'
  let dotIndex := rfind l '.'
  if sepIndex < dotIndex then
    let start := (sepIndex + 1).toNat
    let dotN := dotIndex.toNat
    if ((l.drop start).take (dotN - start)).all (fun ch => ch = '.') then
      (p, "")
    else
      (⟨l.take dotN⟩, ⟨l.drop dotN⟩)
  else
    (p, "")

/-- test.py lines 31-32: the default output path,
`f_name, f_ext = os.path.splitext(input_path)` then
`f"{f_name}_transparent.png"`. -/
def defaultOutput (input_path : String) : String :=
  (splitext input_path).1 ++ "_transparent.png"

/-- test.py line 30: `if not output_path:` — `None` (absent) and the empty
string are both falsy, so both select the default output path. -/
def resolveOutput (input_path : String) (output_path : Option String) : String :=
  match output_path with
  | none => defaultOutput input_path
  | some s => if s = "" then defaultOutput input_path else s

/-! ## Converter effects -/

/-- The filesystem as the converter sees it: a map from paths to decoded
image files (decoding itself is the black-box collaborator). -/
structure ConvFS where
  contents : String → Option Image

attribute [ext] ConvFS

/-- One observable step of the converter: a console print, a decode of an
input file, or a save of an output file. -/
inductive ConvEvent
  | msg (s : String)
  | decode (path : String)
  | save (path : String)
deriving DecidableEq, Repr

/-- test.py line 12: `f"错误: 找不到文件 '{input_path}'"`. -/
def notFoundMsg (input_path : String) : String :=
  "错误: 找不到文件 " ++ quo ++ input_path ++ quo

/-- test.py line 15: `f"正在处理: {input_path} ..."`. -/
def processingMsg (input_path : String) : String :=
  "正在处理: " ++ input_path ++ " ..."

/-- test.py line 35: `f"成功! 输出文件已保存至: {output_path}"`. -/
def savedMsg (output_path : String) : String :=
  "成功! 输出文件已保存至: " ++ output_path

/-- `white_to_transparent(input_path, output_path=None)` (test.py lines
9-35): if the input path does not exist, print the not-found message and
return; otherwise decode and normalize to RGBA, rewrite every pure-white
pixel to `(255, 255, 255, 0)`, resolve the output path, and save the
result as PNG.  Returns the event trace and the updated filesystem. -/
def white_to_transparent (fs : ConvFS) (input_path : String)
    (output_path : Option String) : List ConvEvent × ConvFS :=
  match fs.contents input_path with
  | none => ([ConvEvent.msg (notFoundMsg input_path)], fs)
  | some file =>
    let img := convertToRGBA file
    let new_data := img.data.map transformPixel
    let img2 : RGBAImage := { img with data := new_data }
    let out := resolveOutput input_path output_path
    ([ConvEvent.msg (processingMsg input_path), ConvEvent.decode input_path,
      ConvEvent.save out, ConvEvent.msg (savedMsg out)],
     { contents := fun p => if p = out then some (encodePNG img2) else fs.contents p })

/-! ## Module-level code of test.py -/

/-- test.py line 7: the message printed when `from PIL import Image`
raises `ImportError`. -/
def pipMsg : String :=
  "错误: 未检测到 PIL/Pillow 库。请先运行: pip install Pillow"

/-- test.py lines 37-41: the banner printed at the end of the `else`
branch when PIL imported successfully. -/
def bannerEvents : List ConvEvent :=
  [ConvEvent.msg "----------------------------------------",
   ConvEvent.msg ("环境检查完毕。函数 " ++ quo ++ "white_to_transparent" ++ quo ++ " 已就绪。"),
   ConvEvent.msg "请直接输入以下命令调用（替换为你自己的文件路径）:",
   ConvEvent.msg ("white_to_transparent(" ++ quo ++ "image.png" ++ quo ++ ")"),
   ConvEvent.msg "----------------------------------------"]

/-- Outcome of running the test.py module: either a normal completion or
an uncaught exception, each with the events emitted up to that point and
the final filesystem. -/
inductive ModuleOutcome
  | normal (events : List ConvEvent) (fs : ConvFS)
  | raisedNameError (events : List ConvEvent) (fs : ConvFS)

/-- Running the test.py module top to bottom.  `pilAvailable` says whether
`from PIL import Image` succeeds.  When it does, the `else` branch defines
`white_to_transparent`, prints the banner, and then line 43 (which sits at
module level, OUTSIDE the try/except/else) calls
`white_to_transparent('sidebar-icon.png')`.  When the import fails, the
`except` branch prints `pipMsg`, the function is never defined, and the
call on line 43 raises `NameError`, which no handler catches. -/
def test_py_module (pilAvailable : Bool) (fs : ConvFS) : ModuleOutcome :=
  if pilAvailable then
    let r := white_to_transparent fs "sidebar-icon.png" none
    ModuleOutcome.normal (bannerEvents ++ r.1) r.2
  else
    ModuleOutcome.raisedNameError [ConvEvent.msg pipMsg] fs

/-! ## Fetcher (`src/assets/tree-sitter/download_wasm.py`) -/

/-- download_wasm.py line 6. -/
def BASE_URL : String := "https://unpkg.com/tree-sitter-wasms@0.1.13/out/"

/-- download_wasm.py line 7. -/
def OUTPUT_DIR : String := "."

/-- download_wasm.py lines 10-47: the hard-coded list of filenames. -/
def FILES : List String :=
  ["tree-sitter-bash.wasm",
   "tree-sitter-c.wasm",
   "tree-sitter-c_sharp.wasm",
   "tree-sitter-cpp.wasm",
   "tree-sitter-css.wasm",
   "tree-sitter-dart.wasm",
   "tree-sitter-elisp.wasm",
   "tree-sitter-elixir.wasm",
   "tree-sitter-elm.wasm",
   "tree-sitter-embedded_template.wasm",
   "tree-sitter-go.wasm",
   "tree-sitter-html.wasm",
   "tree-sitter-java.wasm",
   "tree-sitter-javascript.wasm",
   "tree-sitter-json.wasm",
   "tree-sitter-kotlin.wasm",
   "tree-sitter-lua.wasm",
   "tree-sitter-objc.wasm",
   "tree-sitter-ocaml.wasm",
   "tree-sitter-php.wasm",
   "tree-sitter-python.wasm",
   "tree-sitter-ql.wasm",
   "tree-sitter-rescript.wasm",
   "tree-sitter-ruby.wasm",
   "tree-sitter-rust.wasm",
   "tree-sitter-scala.wasm",
   "tree-sitter-solidity.wasm",
   "tree-sitter-swift.wasm",
   "tree-sitter-systemrdl.wasm",
   "tree-sitter-tlaplus.wasm",
   "tree-sitter-toml.wasm",
   "tree-sitter-tsx.wasm",
   "tree-sitter-typescript.wasm",
   "tree-sitter-vue.wasm",
   "tree-sitter-yaml.wasm",
   "tree-sitter-zig.wasm"]

deriving instance DecidableEq for Except

/-- How the environment behaves for one filename: whether
`urllib.request.urlopen(req)` succeeds, whether `open(filepath, 'wb')`
succeeds, what `response.read()` yields (body bytes, or an exception
message), and whether `out_file.write(data)` succeeds.  `.error e` means
the corresponding Python call raises an exception whose text is `e`. -/
structure FileEnv where
  openResp : Except String Unit
  openOut : Except String Unit
  readBody : Except String (List Nat)
  writeOut : Except String Unit
deriving DecidableEq, Repr

/-- The network-and-disk environment for a whole run, keyed by filename
(the URL `BASE_URL ++ filename` is injective in the filename). -/
abbrev NetEnv := String → FileEnv

/-- The local filesystem the fetcher writes: paths to raw byte contents. -/
abbrev FileSys := String → Option (List Nat)

/-- Does the string start with the posix separator. -/
def startsWithSlash (s : String) : Bool :=
  match s.data with
  | [] => false
  | c :: _ => c = '/'

/-- Does the string end with the posix separator. -/
def endsWithSlash (s : String) : Bool :=
  match s.data.getLast? with
  | none => false
  | some c => c = '/'

/-- `os.path.join(a, b)` (posixpath, one argument): an absolute `b`
replaces `a`; otherwise insert a `/` unless `a` is empty or already ends
with one. -/
def pathJoin (a b : String) : String :=
  if startsWithSlash b then b
  else if a = "" ∨ endsWithSlash a then a ++ b
  else a ++ "/" ++ b

/-- One observable step of the fetcher.  Each constructor carries the data
formatted into the corresponding print of download_wasm.py:
`created d` is `f"Created directory: {d}"` (line 77),
`header n base` is `f"Downloading {n} files from {base}...\n"` (line 79),
`started f` is `f"Starting: {f}..."` (line 55),
`success f` is `f"✅ Success: {f}"` (line 67),
`failed f e` is `f"❌ Failed: {f} - Error: {e}"` (line 70),
`done` is `"\nAll tasks completed."` (line 85). -/
inductive FetchEvent
  | created (dir : String)
  | header (n : Nat) (base : String)
  | started (f : String)
  | success (f : String)
  | failed (f : String) (err : String)
  | done
deriving DecidableEq, Repr

/-- `download_file(filename)` (download_wasm.py lines 49-71).  The URL is
`BASE_URL ++ filename` and the local path `os.path.join(OUTPUT_DIR,
filename)`; both are pure string constructions that cannot raise.  Inside
the `try`: print the start line, open the URL, then `open(filepath, 'wb')`
— which truncates the destination file to zero bytes as soon as it
succeeds, BEFORE the body is read — then read the whole body and write it.
Any exception along the way is caught by the broad `except`, which prints
the failure line and returns `False`; success returns `True`.  Returns
the result, the event trace, and the updated filesystem. -/
def download_file (env : NetEnv) (fs : FileSys) (filename : String) :
    Bool × List FetchEvent × FileSys :=
  let filepath := pathJoin OUTPUT_DIR filename
  let ef := env filename
  match ef.openResp with
  | Except.error e => (false, [FetchEvent.started filename, FetchEvent.failed filename e], fs)
  | Except.ok _ =>
    match ef.openOut with
    | Except.error e => (false, [FetchEvent.started filename, FetchEvent.failed filename e], fs)
    | Except.ok _ =>
      let fs1 : FileSys := fun p => if p = filepath then some [] else fs p
      match ef.readBody with
      | Except.error e =>
        (false, [FetchEvent.started filename, FetchEvent.failed filename e], fs1)
      | Except.ok body =>
        match ef.writeOut with
        | Except.error e =>
          (false, [FetchEvent.started filename, FetchEvent.failed filename e], fs1)
        | Except.ok _ =>
          (true, [FetchEvent.started filename, FetchEvent.success filename],
           fun p => if p = filepath then some body else fs p)

/-- The first exception (if any) that the environment raises for one file,
in the order the stages run: urlopen, open for write, read, write. -/
def stageError (ef : FileEnv) : Option String :=
  match ef.openResp with
  | Except.error e => some e
  | Except.ok _ =>
    match ef.openOut with
    | Except.error e => some e
    | Except.ok _ =>
      match ef.readBody with
      | Except.error e => some e
      | Except.ok _ =>
        match ef.writeOut with
        | Except.error e => some e
        | Except.ok _ => none

/-- `executor.map(download_file, FILES)` (line 83): every filename is
submitted once; the `with` block joins the pool, so all tasks have
resolved when it exits.  The pool's interleaving does not affect any
property proved here, so the tasks are serialized in list order. -/
def runTasks (env : NetEnv) : List String → FileSys → List FetchEvent × FileSys
  | [], fs => ([], fs)
  | f :: rest, fs =>
    let r := download_file env fs f
    let rr := runTasks env rest r.2.2
    (r.2.1 ++ rr.1, rr.2)

/-- `main()` (download_wasm.py lines 73-85): create `OUTPUT_DIR` if it
does not exist (`dirExists` says whether `os.path.exists(OUTPUT_DIR)`
held; for the hard-coded `"."` it always does), print the header, run the
pool over `FILES`, and print the completion line once the pool drains. -/
def main (dirExists : Bool) (env : NetEnv) (fs : FileSys) :
    List FetchEvent × FileSys :=
  let pre : List FetchEvent :=
    if dirExists then [] else [FetchEvent.created OUTPUT_DIR]
  let r := runTasks env FILES fs
  ((pre ++ FetchEvent.header FILES.length BASE_URL :: r.1) ++ [FetchEvent.done], r.2)

/-! ## Derived descriptions and helper lemmas -/

/-- What the converter computes for one decoded file: normalize each pixel
to RGBA, rewrite pure-white pixels, store with explicit alpha; dimensions
are preserved. -/
def transformedFile (file : Image) : Image :=
  { width := file.width, height := file.height,
    data := file.data.map fun p => storePixel (transformPixel (convertRGBA p)) }

/-- The result line `download_file` prints for one filename: the success
line when no stage raised, otherwise the failure line with the error
text. -/
def resultEvent (ef : FileEnv) (f : String) : FetchEvent :=
  match stageError ef with
  | some e => FetchEvent.failed f e
  | none => FetchEvent.success f

lemma transformPixel_transformPixel (x : Pixel) :
    transformPixel (transformPixel x) = transformPixel x := by
  unfold transformPixel
  by_cases h : x.r = 255 ∧ x.g = 255 ∧ x.b = 255 <;> simp [h]

lemma convertRGBA_storePixel (x : Pixel) : convertRGBA (storePixel x) = x := rfl

lemma white_to_transparent_of_some (fs : ConvFS) (file : Image)
    (input_path : String) (output_path : Option String)
    (h : fs.contents input_path = some file) :
    white_to_transparent fs input_path output_path =
      ([ConvEvent.msg (processingMsg input_path), ConvEvent.decode input_path,
        ConvEvent.save (resolveOutput input_path output_path),
        ConvEvent.msg (savedMsg (resolveOutput input_path output_path))],
       ⟨fun p => if p = resolveOutput input_path output_path then
          some (transformedFile file) else fs.contents p⟩) := by
  simp only [white_to_transparent, h, convertToRGBA, encodePNG, transformedFile,
    List.map_map, Function.comp_def]

lemma transformedFile_transformedFile (file : Image) :
    transformedFile (transformedFile file) = transformedFile file := by
  have hfun : (fun p => storePixel (transformPixel
      (convertRGBA (storePixel (transformPixel (convertRGBA p)))))) =
      fun p : InPixel => storePixel (transformPixel (convertRGBA p)) := by
    funext p
    rw [convertRGBA_storePixel, transformPixel_transformPixel]
  simp [transformedFile, List.map_map, Function.comp_def, hfun]

lemma download_file_fst (env : NetEnv) (fs : FileSys) (f : String) :
    (download_file env fs f).1 = (stageError (env f)).isNone := by
  rcases h1 : (env f).openResp with e1 | u1 <;>
    rcases h2 : (env f).openOut with e2 | u2 <;>
    rcases h3 : (env f).readBody with e3 | body <;>
    rcases h4 : (env f).writeOut with e4 | u4 <;>
    simp [download_file, stageError, h1, h2, h3, h4]

lemma download_file_events (env : NetEnv) (fs : FileSys) (f : String) :
    (download_file env fs f).2.1 = [FetchEvent.started f, resultEvent (env f) f] := by
  rcases h1 : (env f).openResp with e1 | u1 <;>
    rcases h2 : (env f).openOut with e2 | u2 <;>
    rcases h3 : (env f).readBody with e3 | body <;>
    rcases h4 : (env f).writeOut with e4 | u4 <;>
    simp [download_file, resultEvent, stageError, h1, h2, h3, h4]

lemma resultEvent_ne_started (ef : FileEnv) (f g : String) :
    resultEvent ef f ≠ FetchEvent.started g := by
  unfold resultEvent
  cases stageError ef <;> simp

lemma resultEvent_ne_done (ef : FileEnv) (f : String) :
    resultEvent ef f ≠ FetchEvent.done := by
  unfold resultEvent
  cases stageError ef <;> simp

lemma runTasks_count_started (env : NetEnv) (g : String) :
    ∀ (L : List String) (fs : FileSys),
      ((runTasks env L fs).1.count (FetchEvent.started g)) = L.count g := by
  intro L
  induction L with
  | nil => intro fs; rfl
  | cons f rest ih =>
    intro fs
    by_cases hfg : f = g <;>
      simp [runTasks, download_file_events, List.count_append, List.count_cons,
        ih, resultEvent_ne_started, hfg]

lemma runTasks_count_done (env : NetEnv) :
    ∀ (L : List String) (fs : FileSys),
      ((runTasks env L fs).1.count FetchEvent.done) = 0 := by
  intro L
  induction L with
  | nil => intro fs; rfl
  | cons f rest ih =>
    intro fs
    have hne := resultEvent_ne_done (env f) f
    simp [runTasks, download_file_events, List.count_append, List.count_cons, ih, hne]

lemma files_nodup : FILES.Nodup := by decide

lemma main_getLast_done (dirExists : Bool) (env : NetEnv) (fs : FileSys) :
    (main dirExists env fs).1.getLast? = some FetchEvent.done := by
  show ((((if dirExists then ([] : List FetchEvent) else [FetchEvent.created OUTPUT_DIR]) ++
      FetchEvent.header FILES.length BASE_URL :: (runTasks env FILES fs).1) ++
      [FetchEvent.done]).getLast? = some FetchEvent.done)
  exact List.getLast?_concat _

/-- A filesystem with no files, used to instantiate theorems. -/
def emptyFileSys : FileSys := fun _ => none

/-- A converter filesystem with no files. -/
def emptyConvFS : ConvFS := ⟨fun _ => none⟩

/-- The 2×2 image of the spec's concrete scenario. -/
def iconFile : Image :=
  { width := 2, height := 2,
    data := [⟨255, 255, 255, some 255⟩, ⟨10, 20, 30, some 255⟩,
             ⟨255, 255, 255, some 100⟩, ⟨0, 0, 0, some 255⟩] }

/-- A converter filesystem holding only `icon.png` with the 2×2 image. -/
def fsIcon : ConvFS := ⟨fun p => if p = "icon.png" then some iconFile else none⟩

/-- An environment where every fetch fails at `urlopen`. -/
def envFail : NetEnv :=
  fun _ => ⟨Except.error "boom", Except.ok (), Except.ok [], Except.ok ()⟩

/-- An environment where the connection and local open succeed but
reading the body raises. -/
def envReadFail : NetEnv :=
  fun _ => ⟨Except.ok (), Except.ok (), Except.error "timeout", Except.ok ()⟩

/-- A fetcher filesystem holding a pre-existing non-empty file at the
destination of `tree-sitter-c.wasm`. -/
def fsPre : FileSys :=
  fun p => if p = pathJoin OUTPUT_DIR "tree-sitter-c.wasm" then some [7] else none

/-! ## Claims -/

/-- C1: the converter maps each pixel whose first three channels equal
(255,255,255) — regardless of its input alpha — to (255,255,255,0), and
every other pixel to itself unchanged (alpha defaulted to 255 by RGBA
normalization when the source lacked one); the saved file holds exactly
the per-pixel image of the input; and on the 2×2 input
[(255,255,255,255), (10,20,30,255), (255,255,255,100), (0,0,0,255)] the
output is [(255,255,255,0), (10,20,30,255), (255,255,255,0), (0,0,0,255)]. -/
theorem c1_pixel_transform :
    (∀ q : InPixel,
        ((q.r = 255 ∧ q.g = 255 ∧ q.b = 255) →
          transformPixel (convertRGBA q) = { r := 255, g := 255, b := 255, a := 0 })
      ∧ (¬(q.r = 255 ∧ q.g = 255 ∧ q.b = 255) →
          transformPixel (convertRGBA q) = convertRGBA q))
  ∧ (∀ (fs : ConvFS) (input_path : String) (file : Image) (output_path : Option String),
      fs.contents input_path = some file →
        (white_to_transparent fs input_path output_path).2.contents
            (resolveOutput input_path output_path) =
          some { width := file.width, height := file.height,
                 data := file.data.map fun q => storePixel (transformPixel (convertRGBA q)) })
  ∧ (([⟨255, 255, 255, some 255⟩, ⟨10, 20, 30, some 255⟩,
       ⟨255, 255, 255, some 100⟩, ⟨0, 0, 0, some 255⟩] : List InPixel).map
        (fun q => transformPixel (convertRGBA q)) =
      [⟨255, 255, 255, 0⟩, ⟨10, 20, 30, 255⟩, ⟨255, 255, 255, 0⟩, ⟨0, 0, 0, 255⟩]) := by
  refine ⟨?_, ?_, by decide⟩
  · intro q
    constructor
    · rintro ⟨h1, h2, h3⟩
      simp [transformPixel, convertRGBA, h1, h2, h3]
    · intro h
      simp [transformPixel, convertRGBA, h]
  · intro fs p file op h
    rw [white_to_transparent_of_some fs file p op h]
    simp [transformedFile]

theorem c1_witness :
    fsIcon.contents "icon.png" = some iconFile ∧
    (white_to_transparent fsIcon "icon.png" none).2.contents
        (resolveOutput "icon.png" none) =
      some { width := iconFile.width, height := iconFile.height,
             data := iconFile.data.map fun q => storePixel (transformPixel (convertRGBA q)) } :=
  ⟨by decide, c1_pixel_transform.2.1 fsIcon "icon.png" iconFile none (by decide)⟩

/-- C4: for every nonexistent input path, `white_to_transparent` emits
exactly one event — the descriptive not-found message — returns normally,
and leaves the filesystem untouched: no output is written and no decode
is attempted. -/
theorem c4_missing_input :
    ∀ (fs : ConvFS) (input_path : String) (output_path : Option String),
      fs.contents input_path = none →
        white_to_transparent fs input_path output_path =
          ([ConvEvent.msg (notFoundMsg input_path)], fs) := by
  intro fs p op h
  simp [white_to_transparent, h]

theorem c4_witness :
    emptyConvFS.contents "missing.png" = none ∧
    white_to_transparent emptyConvFS "missing.png" none =
      ([ConvEvent.msg (notFoundMsg "missing.png")], emptyConvFS) :=
  ⟨rfl, c4_missing_input emptyConvFS "missing.png" none rfl⟩

/-- C7: the converter is idempotent at the file level — running
`white_to_transparent` a second time on the same input and output path
leaves the filesystem exactly as after the first run (so the output file
is byte-identical both times), and the per-pixel transform applied to its
own output is the identity. -/
theorem c7_converter_idempotent :
    (∀ (fs : ConvFS) (input_path : String) (output_path : Option String),
      (white_to_transparent
          (white_to_transparent fs input_path output_path).2 input_path output_path).2 =
        (white_to_transparent fs input_path output_path).2)
    ∧ ∀ x : Pixel, transformPixel (transformPixel x) = transformPixel x := by
  constructor
  · intro fs p op
    rcases h : fs.contents p with _ | file
    · simp [white_to_transparent, h]
    · rw [white_to_transparent_of_some fs file p op h]
      have h2 : (ConvFS.mk fun q => if q = resolveOutput p op then
          some (transformedFile file) else fs.contents q).contents p =
          some (if p = resolveOutput p op then transformedFile file else file) := by
        show (if p = resolveOutput p op then
            some (transformedFile file) else fs.contents p) =
          some (if p = resolveOutput p op then transformedFile file else file)
        by_cases hp : p = resolveOutput p op
        · rw [if_pos hp, if_pos hp]
        · rw [if_neg hp, if_neg hp, h]
      rw [white_to_transparent_of_some _ _ p op h2]
      apply ConvFS.ext
      funext q
      show (if q = resolveOutput p op then
          some (transformedFile (if p = resolveOutput p op then transformedFile file else file))
        else if q = resolveOutput p op then some (transformedFile file) else fs.contents q) =
        (if q = resolveOutput p op then some (transformedFile file) else fs.contents q)
      by_cases hq : q = resolveOutput p op
      · rw [if_pos hq, if_pos hq]
        by_cases hp : p = resolveOutput p op
        · rw [if_pos hp, transformedFile_transformedFile]
        · rw [if_neg hp]
      · rw [if_neg hq]
  · exact transformPixel_transformPixel

/-- C8: when no output path is supplied the converter writes to the path
obtained by stripping the input's extension and appending
"_transparent.png" (and changes no other path); in particular `icon.png`
yields `icon_transparent.png`, in the same directory. -/
theorem c8_default_output :
    (∀ (fs : ConvFS) (input_path : String) (file : Image),
      fs.contents input_path = some file →
        ((white_to_transparent fs input_path none).2.contents (defaultOutput input_path) =
            some (transformedFile file)
          ∧ ∀ p2, p2 ≠ defaultOutput input_path →
              (white_to_transparent fs input_path none).2.contents p2 = fs.contents p2))
  ∧ defaultOutput "icon.png" = "icon_transparent.png"
  ∧ defaultOutput "assets/icon.png" = "assets/icon_transparent.png" := by
  refine ⟨?_, by decide, by decide⟩
  intro fs p file h
  rw [white_to_transparent_of_some fs file p none h]
  constructor
  · simp [resolveOutput]
  · intro p2 hp2
    simp [resolveOutput, hp2]

theorem c8_witness :
    fsIcon.contents "icon.png" = some iconFile ∧
    (white_to_transparent fsIcon "icon.png" none).2.contents (defaultOutput "icon.png") =
      some (transformedFile iconFile) ∧
    ("other.png" : String) ≠ defaultOutput "icon.png" ∧
    (white_to_transparent fsIcon "icon.png" none).2.contents "other.png" =
      fsIcon.contents "other.png" ∧
    defaultOutput "icon.png" = "icon_transparent.png" := by
  have h := c8_default_output.1 fsIcon "icon.png" iconFile (by decide)
  exact ⟨by decide, h.1, by decide, h.2 "other.png" (by decide), c8_default_output.2.1⟩

/-- C9: `white_to_transparent` tests `output_path` for falsiness, so the
empty string behaves exactly like omitting the argument: same events,
same output file at the derived default path. -/
theorem c9_empty_output_path :
    ∀ (fs : ConvFS) (input_path : String),
      white_to_transparent fs input_path (some "") =
        white_to_transparent fs input_path none := by
  intro fs p
  rcases h : fs.contents p with _ | file
  · simp [white_to_transparent, h]
  · rw [white_to_transparent_of_some fs file p (some "") h,
      white_to_transparent_of_some fs file p none h]
    simp [resolveOutput]

/-- C3 (code bug): when PIL is unavailable, the module prints the
instructional message but is NOT inert — the module-level call on line
43 of test.py sits outside the try/except/else, so it raises an uncaught
`NameError` that bubbles out of the program. -/
theorem c3_pil_missing_raises :
    ∀ fs : ConvFS,
      test_py_module false fs =
        ModuleOutcome.raisedNameError [ConvEvent.msg pipMsg] fs := by
  intro fs
  rfl

/-- C2 (counterexample): the hard-coded list `FILES` does not have 35
entries. -/
theorem c2_counterexample : FILES.length ≠ 35 := by decide

/-- C2 (amended): the hard-coded list `FILES` contains exactly 36
filename entries. -/
theorem c2_files_has_36_entries : FILES.length = 36 := by decide

/-- C5: whatever stage of a download raises, `download_file` catches it,
prints the failure line with the filename and error text, and returns
`false`; when nothing raises it returns `true`; the outcome of one
filename depends only on that filename's environment (never on siblings
or the filesystem); and the batch always ends with the completion
message whatever the environment did. -/
theorem c5_errors_caught_per_task :
    ∀ (env env2 : NetEnv) (fs fs2 : FileSys) (dirExists : Bool) (filename e : String),
      (stageError (env filename) = some e →
          (download_file env fs filename).1 = false
        ∧ (download_file env fs filename).2.1 =
            [FetchEvent.started filename, FetchEvent.failed filename e])
    ∧ (stageError (env filename) = none →
          (download_file env fs filename).1 = true
        ∧ (download_file env fs filename).2.1 =
            [FetchEvent.started filename, FetchEvent.success filename])
    ∧ (env filename = env2 filename →
          (download_file env fs filename).1 = (download_file env2 fs2 filename).1
        ∧ (download_file env fs filename).2.1 = (download_file env2 fs2 filename).2.1)
    ∧ (main dirExists env fs).1.getLast? = some FetchEvent.done := by
  intro env env2 fs fs2 dirEx f e
  refine ⟨fun h => ⟨?_, ?_⟩, fun h => ⟨?_, ?_⟩, fun h => ⟨?_, ?_⟩, ?_⟩
  · rw [download_file_fst, h]
    rfl
  · rw [download_file_events]
    simp [resultEvent, h]
  · rw [download_file_fst, h]
    rfl
  · rw [download_file_events]
    simp [resultEvent, h]
  · rw [download_file_fst, download_file_fst, h]
  · rw [download_file_events, download_file_events, h]
  · exact main_getLast_done dirEx env fs

theorem c5_witness :
    stageError (envFail "tree-sitter-go.wasm") = some "boom" ∧
    (download_file envFail emptyFileSys "tree-sitter-go.wasm").1 = false ∧
    (main true envFail emptyFileSys).1.getLast? = some FetchEvent.done := by
  have h := c5_errors_caught_per_task envFail envFail emptyFileSys emptyFileSys true
    "tree-sitter-go.wasm" "boom"
  exact ⟨rfl, (h.1 rfl).1, h.2.2.2⟩

/-- C6: every entry of the fixed file list is attempted exactly once (no
retries, no skips) — its start line appears exactly once in the batch
trace — and the completion message appears exactly once, as the very
last event, so only after every per-file attempt has resolved. -/
theorem c6_exactly_one_attempt :
    ∀ (env : NetEnv) (fs : FileSys) (dirExists : Bool) (f : String),
      f ∈ FILES →
        ((main dirExists env fs).1.count (FetchEvent.started f) = 1
        ∧ (main dirExists env fs).1.count FetchEvent.done = 1
        ∧ (main dirExists env fs).1.getLast? = some FetchEvent.done) := by
  intro env fs dirEx f hf
  refine ⟨?_, ?_, main_getLast_done dirEx env fs⟩
  · have hcnt := runTasks_count_started env f FILES fs
    have hone : FILES.count f = 1 := List.count_eq_one_of_mem files_nodup hf
    cases dirEx <;>
      simp [main, List.count_append, List.count_cons, hcnt, hone]
  · cases dirEx <;>
      simp [main, List.count_append, List.count_cons, runTasks_count_done]

theorem c6_witness :
    "tree-sitter-bash.wasm" ∈ FILES ∧
    (main true envFail emptyFileSys).1.count
        (FetchEvent.started "tree-sitter-bash.wasm") = 1 ∧
    (main true envFail emptyFileSys).1.getLast? = some FetchEvent.done := by
  have h := c6_exactly_one_attempt envFail emptyFileSys true "tree-sitter-bash.wasm"
    (by decide)
  exact ⟨by decide, h.1, h.2.2⟩

/-- C10: `download_file` truncates the destination before the body is
read, so when the connection and the local open succeed but reading the
body raises, the function reports failure yet leaves a zero-byte file on
disk, and any pre-existing contents of that name have been destroyed. -/
theorem c10_failed_read_leaves_empty_file :
    ∀ (env : NetEnv) (fs : FileSys) (filename e : String),
      (env filename).openResp = Except.ok () →
      (env filename).openOut = Except.ok () →
      (env filename).readBody = Except.error e →
        ((download_file env fs filename).1 = false
        ∧ (download_file env fs filename).2.1 =
            [FetchEvent.started filename, FetchEvent.failed filename e]
        ∧ (download_file env fs filename).2.2 (pathJoin OUTPUT_DIR filename) = some []
        ∧ ∀ old : List Nat, old ≠ [] →
            (download_file env fs filename).2.2 (pathJoin OUTPUT_DIR filename) ≠ some old) := by
  intro env fs f e h1 h2 h3
  have hempty : (download_file env fs f).2.2 (pathJoin OUTPUT_DIR f) = some [] := by
    simp [download_file, h1, h2, h3]
  refine ⟨?_, ?_, hempty, ?_⟩
  · simp [download_file, h1, h2, h3]
  · simp [download_file, h1, h2, h3]
  · intro old hold
    rw [hempty]
    intro hc
    apply hold
    injection hc with hc2
    exact hc2.symm

theorem c10_witness :
    (envReadFail "tree-sitter-c.wasm").readBody = Except.error "timeout" ∧
    (download_file envReadFail fsPre "tree-sitter-c.wasm").1 = false ∧
    (download_file envReadFail fsPre "tree-sitter-c.wasm").2.2
        (pathJoin OUTPUT_DIR "tree-sitter-c.wasm") = some [] ∧
    (download_file envReadFail fsPre "tree-sitter-c.wasm").2.2
        (pathJoin OUTPUT_DIR "tree-sitter-c.wasm") ≠ some [7] := by
  have h := c10_failed_read_leaves_empty_file envReadFail fsPre "tree-sitter-c.wasm"
    "timeout" rfl rfl rfl
  exact ⟨rfl, h.1, h.2.2.1, h.2.2.2 [7] (by decide)⟩

end Mutsumi
